import Mathlib

/-! Shallow embedding of the governance-and-staking core of the SolanaPRBot
repository: `src/src/dao/token.py` (`TokenManager`: ledger balances and
staking) and `src/src/dao/governance.py` (`GovernanceManager`: proposals and
votes).

Modelling conventions:
* Python `Decimal` amounts are modelled as `ℚ` (exact rational arithmetic).
* `datetime` instants and `timedelta` durations are modelled as `ℤ` seconds.
* Python dicts are association lists `List (k × v)`; `get`/`[]`/assignment are
  `getKey`/`setKey`/`removeKey` with first-occurrence semantics (a dict has
  unique keys, so first-occurrence lookup and in-place replacement agree with
  dict behaviour).
* A Python method that can raise is an `Except PyErr` function; a raise before
  any mutation leaves the caller's state untouched, which matches the source:
  in every modelled method all raises happen before the first state mutation,
  and `Decimal` arithmetic raises on a zero divisor, which is modelled by the
  explicit `divisionByZero` branches.
-/

deriving instance DecidableEq for Except

/-- The runtime errors the modelled methods can raise.  The first group are
the `ValueError`s raised explicitly by `token.py`/`governance.py` (named after
the spec's domain-error vocabulary); the second group are implicit Python
runtime errors (`decimal` division with zero divisor, `KeyError` on a missing
dict key, `TypeError` on comparing `datetime` with `None`). -/
inductive PyErr where
  | insufficientBalance
  | invalidPool
  | belowMinimumStake
  | invalidPosition
  | tokensLocked
  | proposalNotFound
  | insufficientProposalPower
  | votingNotStarted
  | votingEnded
  | alreadyVoted
  | notSucceeded
  | timelockNotElapsed
  | unknownActionType
  | divisionByZero
  | keyError
  | typeError
  | attributeError
  deriving Repr, DecidableEq

/-- First-occurrence lookup in an association list (Python `dict.get`). -/
def getKey {κ α : Type} [DecidableEq κ] : List (κ × α) → κ → Option α
  | [], _ => none
  | (k₁, v₁) :: rest, k => if k₁ = k then some v₁ else getKey rest k

/-- Replace the first binding of `k` (or append one): Python `d[k] = v`. -/
def setKey {κ α : Type} [DecidableEq κ] : List (κ × α) → κ → α → List (κ × α)
  | [], k, v => [(k, v)]
  | (k₁, v₁) :: rest, k, v =>
      if k₁ = k then (k, v) :: rest else (k₁, v₁) :: setKey rest k v

/-- Delete the first binding of `k`: Python `del d[k]`. -/
def removeKey {κ α : Type} [DecidableEq κ] : List (κ × α) → κ → List (κ × α)
  | [], _ => []
  | (k₁, v₁) :: rest, k =>
      if k₁ = k then rest else (k₁, v₁) :: removeKey rest k

/-- Account balances: `TokenManager.balances : Dict[str, Decimal]`. -/
abbrev Balances : Type := List (String × ℚ)

/-- The `TokenManager.get_balance`: `self.balances.get(address, Decimal(0))`. -/
def balanceOf (bal : Balances) (address : String) : ℚ :=
  (getKey bal address).getD 0

/-- The `TokenManager.transfer(from_address, to_address, amount)`
(`src/src/dao/token.py` lines 103–120): raises `InsufficientBalance` when
`from_balance < amount`, otherwise debits `from_address` and credits
`to_address` (with a `get(..., 0)` default on the credit side).  There is no
check on the sign of `amount` in the source. -/
def transfer (bal : Balances) (fromAddress toAddress : String) (amount : ℚ) :
    Except PyErr Balances :=
  let fromBalance := balanceOf bal fromAddress
  if fromBalance < amount then .error .insufficientBalance
  else
    let bal₁ := setKey bal fromAddress (fromBalance - amount)
    .ok (setKey bal₁ toAddress (balanceOf bal₁ toAddress + amount))

/-- Sum of all account balances (over the whole underlying dict). -/
def sumBalances (bal : Balances) : ℚ :=
  (bal.map Prod.snd).sum

/-- Apply a sequence of `transfer` calls; a failing call (a raised
`ValueError`) leaves the balances unchanged, as in the source where the raise
happens before either balance is written. -/
def applyTransfers (bal : Balances) (calls : List (String × String × ℚ)) :
    Balances :=
  calls.foldl
    (fun b c =>
      match transfer b c.1 c.2.1 c.2.2 with
      | .ok b₂ => b₂
      | .error _ => b)
    bal

theorem getKey_nil {κ α : Type} [DecidableEq κ] (k : κ) :
    getKey ([] : List (κ × α)) k = none := rfl

theorem sumBalances_setKey (bal : Balances) (k : String) (v : ℚ) :
    sumBalances (setKey bal k v) =
      sumBalances bal + v - (getKey bal k).getD 0 := by
  induction bal with
  | nil => simp [setKey, sumBalances, getKey]
  | cons hd tl ih =>
      obtain ⟨k₁, v₁⟩ := hd
      by_cases h : k₁ = k
      · simp [setKey, getKey, h, sumBalances]
        ring
      · simp [setKey, getKey, h, sumBalances] at ih ⊢
        rw [ih]
        ring

theorem sumBalances_transfer (bal bal₂ : Balances)
    (fromAddress toAddress : String) (amount : ℚ)
    (h : transfer bal fromAddress toAddress amount = .ok bal₂) :
    sumBalances bal₂ = sumBalances bal := by
  unfold transfer at h
  by_cases hlt : balanceOf bal fromAddress < amount
  · simp [hlt] at h
  · simp [hlt] at h
    subst h
    rw [sumBalances_setKey, sumBalances_setKey]
    unfold balanceOf
    ring

/-- C2: the sum of all balances is invariant under every sequence of
`transfer` calls. -/
theorem sumBalances_applyTransfers (bal : Balances)
    (calls : List (String × String × ℚ)) :
    sumBalances (applyTransfers bal calls) = sumBalances bal := by
  induction calls generalizing bal with
  | nil => rfl
  | cons c rest ih =>
      show sumBalances (applyTransfers _ rest) = _
      cases htr : transfer bal c.1 c.2.1 c.2.2 with
      | ok b₂ =>
          simp only [htr]
          rw [ih b₂, sumBalances_transfer bal b₂ _ _ _ htr]
      | error e =>
          simp only [htr]
          exact ih bal

/-! Staking: `src/src/dao/token.py` lines 15–242. -/

/-- The `StakingType`: `FLEXIBLE` (can unstake anytime) or `LOCKED` (fixed
staking period). -/
inductive StakingType where
  | flexible
  | locked
  deriving Repr, DecidableEq

/-- The `StakingPool` dataclass; `lockPeriod` is a `timedelta` in seconds. -/
structure StakingPool where
  poolId : ℕ
  stakingType : StakingType
  apr : ℚ
  minStake : ℚ
  lockPeriod : Option ℤ
  totalStaked : ℚ := 0
  totalRewardsDistributed : ℚ := 0
  deriving Repr, DecidableEq

/-- The `StakingPosition` dataclass; instants are seconds, and the optional
`lastClaimTime` models the `last_claim_time: datetime = None` field. -/
structure StakingPosition where
  positionId : ℕ
  user : String
  poolId : ℕ
  amount : ℚ
  startTime : ℤ
  endTime : Option ℤ
  rewardsClaimed : ℚ := 0
  lastClaimTime : Option ℤ := none
  deriving Repr, DecidableEq

/-- The `TokenInfo` dataclass. -/
structure TokenInfo where
  name : String
  symbol : String
  decimals : ℕ
  totalSupply : ℚ
  circulatingSupply : ℚ
  deriving Repr, DecidableEq

/-- The mutable state of a `TokenManager` instance. -/
structure TokenState where
  tokenInfo : TokenInfo
  stakingPools : List (ℕ × StakingPool)
  stakingPositions : List (ℕ × StakingPosition)
  nextPositionId : ℕ
  balances : Balances
  treasuryBalance : ℚ
  deriving Repr, DecidableEq

/-- Modelled from the spec: `total_supply()` is a read-only accessor
returning the declared total supply (`TokenManager.get_total_supply` is
called by `GovernanceManager._check_proposal_state` and
`get_proposal_result` but is not defined in `src/src/dao/token.py`; the
spec describes it as a read-only accessor of the token's total supply,
which `TokenManager` stores as `token_info.total_supply`). -/
def get_total_supply (st : TokenState) : ℚ :=
  st.tokenInfo.totalSupply

/-- The pure reward formula of `TokenManager._calculate_rewards` (lines
231–242): `position.amount * pool.apr * years` where `years` is the elapsed
time since `last_claim_time or start_time`, in seconds, divided by
`31536000` (the seconds in a 365-day year). -/
def rewardAmount (position : StakingPosition) (pool : StakingPool) (now : ℤ) : ℚ :=
  position.amount * pool.apr *
    (((now - position.lastClaimTime.getD position.startTime : ℤ) : ℚ) / 31536000)

/-- The `TokenManager._calculate_rewards(position)`: looks the pool up with
`self.staking_pools[position.pool_id]` (a `KeyError` when absent) and applies
the reward formula. -/
def calculate_rewards (st : TokenState) (position : StakingPosition) (now : ℤ) :
    Except PyErr ℚ :=
  match getKey st.stakingPools position.poolId with
  | none => .error .keyError
  | some pool => .ok (rewardAmount position pool now)

/-- The `TokenManager.stake_tokens(user, pool_id, amount)` (lines 122–167). -/
def stake_tokens (st : TokenState) (user : String) (poolId : ℕ) (amount : ℚ)
    (now : ℤ) : Except PyErr (TokenState × StakingPosition) :=
  match getKey st.stakingPools poolId with
  | none => .error .invalidPool
  | some pool =>
    if amount < pool.minStake then .error .belowMinimumStake
    else if balanceOf st.balances user < amount then .error .insufficientBalance
    else
      let position : StakingPosition :=
        { positionId := st.nextPositionId
          user := user
          poolId := poolId
          amount := amount
          startTime := now
          endTime := match pool.lockPeriod with
            | some lockPeriod => some (now + lockPeriod)
            | none => none
          rewardsClaimed := 0
          lastClaimTime := some now }
      match getKey st.balances user with
      | none => .error .keyError
      | some userBalance =>
        .ok ({ st with
                balances := setKey st.balances user (userBalance - amount)
                stakingPools := setKey st.stakingPools poolId
                  { pool with totalStaked := pool.totalStaked + amount }
                stakingPositions :=
                  setKey st.stakingPositions position.positionId position
                nextPositionId := st.nextPositionId + 1 },
              position)

/-- The settlement tail of `unstake_tokens` (lines 185–198), reached once
the ownership and lock checks have passed: compute the reward, credit the
owner with `principal + reward` (`self.balances[user] += ...`, a `KeyError`
when the key is absent), shrink `pool.total_staked`, grow
`pool.total_rewards_distributed`, and delete the position. -/
def unstakeSettlement (st : TokenState) (user : String) (positionId : ℕ)
    (position : StakingPosition) (pool : StakingPool) (now : ℤ) :
    Except PyErr (TokenState × ℚ × ℚ) :=
  match calculate_rewards st position now with
  | .error e => .error e
  | .ok rewards =>
    match getKey st.balances user with
    | none => .error .keyError
    | some userBalance =>
      .ok ({ st with
              balances := setKey st.balances user
                (userBalance + (position.amount + rewards))
              stakingPools := setKey st.stakingPools position.poolId
                { pool with
                    totalStaked := pool.totalStaked - position.amount
                    totalRewardsDistributed :=
                      pool.totalRewardsDistributed + rewards }
              stakingPositions := removeKey st.stakingPositions positionId },
            position.amount, rewards)

/-- The `TokenManager.unstake_tokens(user, position_id)` (lines 169–202): an
unknown or foreign position raises `Invalid staking position`; on a `locked`
pool, `now < position.end_time` raises `Tokens are still locked` (and a
`None` end time would raise a `TypeError` in the comparison); otherwise the
position is settled.  Every raise happens before the first state mutation. -/
def unstake_tokens (st : TokenState) (user : String) (positionId : ℕ)
    (now : ℤ) : Except PyErr (TokenState × ℚ × ℚ) :=
  match getKey st.stakingPositions positionId with
  | none => .error .invalidPosition
  | some position =>
    if position.user ≠ user then .error .invalidPosition
    else
      match getKey st.stakingPools position.poolId with
      | none => .error .keyError
      | some pool =>
        match pool.stakingType with
        | .locked =>
          match position.endTime with
          | none => .error .typeError
          | some lockEnd =>
            if now < lockEnd then .error .tokensLocked
            else unstakeSettlement st user positionId position pool now
        | .flexible => unstakeSettlement st user positionId position pool now

/-- C7: behaviour of `unstake_tokens` on an existing position owned by the
caller whose pool exists (true of every position `stake_tokens` creates).
Before the lock's end a `locked` pool always answers `TokensLocked` (and, the
raise coming before any mutation, no state changes); at or after the lock end
— and unconditionally for `flexible` pools — unstaking succeeds, returns the
principal together with `reward = principal * apr * elapsed/31536000`,
credits the owner with `principal + reward`, shrinks `pool.total_staked` by
the principal, grows `pool.total_rewards_distributed` by the reward, and
deletes the position. -/
theorem unstake_tokens_spec (st : TokenState) (user : String) (positionId : ℕ)
    (now : ℤ) (position : StakingPosition) (pool : StakingPool)
    (hpos : getKey st.stakingPositions positionId = some position)
    (howner : position.user = user)
    (hpool : getKey st.stakingPools position.poolId = some pool) :
    (∀ lockEnd, pool.stakingType = .locked → position.endTime = some lockEnd →
      now < lockEnd →
      unstake_tokens st user positionId now = .error .tokensLocked)
    ∧
    (∀ userBalance, getKey st.balances user = some userBalance →
      (pool.stakingType = .flexible ∨
        ∃ lockEnd, position.endTime = some lockEnd ∧ lockEnd ≤ now) →
      unstake_tokens st user positionId now =
        .ok ({ st with
                balances := setKey st.balances user
                  (userBalance + (position.amount + rewardAmount position pool now))
                stakingPools := setKey st.stakingPools position.poolId
                  { pool with
                      totalStaked := pool.totalStaked - position.amount
                      totalRewardsDistributed :=
                        pool.totalRewardsDistributed + rewardAmount position pool now }
                stakingPositions := removeKey st.stakingPositions positionId },
              position.amount, rewardAmount position pool now)) := by
  have hsettle : ∀ userBalance, getKey st.balances user = some userBalance →
      unstakeSettlement st user positionId position pool now =
        .ok ({ st with
                balances := setKey st.balances user
                  (userBalance + (position.amount + rewardAmount position pool now))
                stakingPools := setKey st.stakingPools position.poolId
                  { pool with
                      totalStaked := pool.totalStaked - position.amount
                      totalRewardsDistributed :=
                        pool.totalRewardsDistributed + rewardAmount position pool now }
                stakingPositions := removeKey st.stakingPositions positionId },
              position.amount, rewardAmount position pool now) := by
    intro userBalance hbal
    unfold unstakeSettlement calculate_rewards
    rw [hpool, hbal]
  constructor
  · intro lockEnd hlocked hend hlt
    unfold unstake_tokens
    simp [hpos, hpool, howner, hlocked, hend, hlt]
  · intro userBalance hbal hready
    unfold unstake_tokens
    rcases hready with hflex | ⟨lockEnd, hend, hle⟩
    · simp [hpos, hpool, howner, hflex, hsettle userBalance hbal]
    · cases htype : pool.stakingType with
      | flexible => simp [hpos, hpool, howner, htype, hsettle userBalance hbal]
      | locked =>
          simp [hpos, hpool, howner, htype, hend, not_lt.mpr hle,
            hsettle userBalance hbal]

/-- A concrete locked pool for the `unstake_tokens_spec` witness: 25% APR,
30-day lock, 5000 minimum stake (pool 2 of `TokenManager.__init__`). -/
def poolC7 : StakingPool :=
  { poolId := 2, stakingType := .locked, apr := 1/4, minStake := 5000
    lockPeriod := some 2592000, totalStaked := 5000
    totalRewardsDistributed := 0 }

/-- A concrete position in `poolC7`: 5000 staked at time 0 for 30 days. -/
def positionC7 : StakingPosition :=
  { positionId := 1, user := "user123", poolId := 2, amount := 5000
    startTime := 0, endTime := some 2592000, rewardsClaimed := 0
    lastClaimTime := some 0 }

/-- A concrete `TokenState` holding `positionC7`. -/
def stC7 : TokenState :=
  { tokenInfo :=
      { name := "GitHub DAO Token", symbol := "GDT", decimals := 9
        totalSupply := 1000000000, circulatingSupply := 0 }
    stakingPools := [(2, poolC7)]
    stakingPositions := [(1, positionC7)]
    nextPositionId := 2
    balances := [("user123", 100)]
    treasuryBalance := 0 }

/-- Witness for C7: one year after staking 5000 at 25% APR in the locked
pool, unstaking returns the principal 5000 and the reward
`5000 * 0.25 * 1.0 = 1250` and credits the owner with both. -/
theorem unstake_tokens_spec_witness :
    unstake_tokens stC7 ("user123") 1 31536000 =
      .ok ({ stC7 with
              balances := [("user123", 6350)]
              stakingPools :=
                [(2, { poolC7 with
                        totalStaked := 0
                        totalRewardsDistributed := 1250 })]
              stakingPositions := [] },
            5000, 1250) := by
  have h := (unstake_tokens_spec stC7 ("user123") 1 31536000 positionC7 poolC7
      rfl rfl rfl).2 100 rfl (Or.inr ⟨2592000, rfl, by decide⟩)
  rw [h]
  simp [stC7, poolC7, positionC7, rewardAmount, setKey, removeKey]
  norm_num

/-- C4 (code bug): `TokenManager.transfer` has no `amount <= 0` guard, and
no `InvalidAmount` error exists anywhere in the source; a transfer of a
negative amount from an address with zero balance is accepted — here it
mints 5 tokens for the sender and drives the receiver's balance to −5,
violating the spec's non-negative-balance invariant (§3) which the
`InsufficientBalance` guard otherwise protects. -/
theorem transfer_negative_amount_accepted :
    transfer [] "alice" "bob" (-5) = .ok [("alice", 5), ("bob", -5)] := by
  have hab : "alice" ≠ "bob" := by decide
  simp [transfer, balanceOf, getKey, setKey, hab]

/-! Governance: `src/src/dao/governance.py`. -/

/-- A Python attribute/payload value as it occurs in the governance config
and in `parameter_change` payloads: a `Decimal`, a `timedelta` (seconds), or
a string.  `setattr` stores any of these unchecked. -/
inductive PyVal where
  | dec : ℚ → PyVal
  | dur : ℤ → PyVal
  | str : String → PyVal
  deriving Repr, DecidableEq

/-- The attribute dictionary of a `GovernanceConfig` object.  Python objects
keep their attributes in a string-keyed dict (`__dict__`), so `setattr` with
a fresh name simply adds a new entry. -/
abbrev Config : Type := List (String × PyVal)

/-- The `GovernanceConfig.__init__` (lines 55–62): min proposal power 100000,
voting delay 24 h, voting period 3 d, execution delay 2 d, quorum 4%,
approval threshold 50%. -/
def initialGovernanceConfig : Config :=
  [("min_proposal_power", .dec 100000),
   ("voting_delay", .dur 86400),
   ("voting_period", .dur 259200),
   ("execution_delay", .dur 172800),
   ("required_quorum", .dec (4/100)),
   ("proposal_threshold", .dec (1/2))]

/-- The `ProposalStatus` enum. -/
inductive ProposalStatus where
  | draft
  | active
  | succeeded
  | defeated
  | executed
  | cancelled
  deriving Repr, DecidableEq

/-- The `VoteType` enum (`FOR`/`AGAINST`/`ABSTAIN`). -/
inductive VoteType where
  | voteFor
  | voteAgainst
  | voteAbstain
  deriving Repr, DecidableEq

/-- The `Vote` dataclass. -/
structure Vote where
  voter : String
  proposalId : ℕ
  voteType : VoteType
  votingPower : ℚ
  timestamp : ℤ
  deriving Repr, DecidableEq

/-- An execution payload dict, keyed by its `type` field:
`{'type': 'transfer', 'from_address', 'to_address', 'amount'}`,
`{'type': 'parameter_change', 'parameter', 'value'}`, or a dict with any
other `type` string. -/
inductive Payload where
  | transferAction (fromAddress toAddress : String) (amount : ℚ)
  | parameterChange (parameter : String) (value : PyVal)
  | unknown (actionType : String)
  deriving Repr, DecidableEq

/-- The `Proposal` dataclass. -/
structure Proposal where
  id : ℕ
  title : String
  description : String
  proposer : String
  startTime : ℤ
  endTime : ℤ
  executionDelay : ℤ
  status : ProposalStatus
  requiredQuorum : ℚ
  votesFor : ℚ := 0
  votesAgainst : ℚ := 0
  votesAbstain : ℚ := 0
  executionPayload : Option Payload := none
  executedAt : Option ℤ := none
  deriving Repr, DecidableEq

/-- The mutable state of a `GovernanceManager` instance. -/
structure GovState where
  config : Config
  proposals : List (ℕ × Proposal)
  votes : List (ℕ × List Vote)
  nextProposalId : ℕ
  deriving Repr, DecidableEq

/-- The `GovernanceManager._check_proposal_state(proposal)` (lines 182–201), the
lazy `resolve` step.  `DRAFT` with `now >= start_time` becomes `ACTIVE`;
*elif* `ACTIVE` with `now >= end_time` the tallies are resolved:
`total_votes / total_supply` (a `Decimal` division, raising when
`total_supply` is zero) is compared against `required_quorum`; inside the
quorum branch `votes_for / (votes_for + votes_against)` is evaluated first
(raising on a zero denominator — Python evaluates the left operand of `>=`
before the right) and compared against the `proposal_threshold` attribute of
the config (a missing attribute raises `AttributeError`, a non-`Decimal` one
makes the comparison raise `TypeError`). -/
def checkProposalState (p : Proposal) (cfg : Config) (totalSupply : ℚ)
    (now : ℤ) : Except PyErr Proposal :=
  if p.status = .draft ∧ p.startTime ≤ now then
    .ok { p with status := .active }
  else if p.status = .active ∧ p.endTime ≤ now then
    let totalVotes := p.votesFor + p.votesAgainst + p.votesAbstain
    if totalSupply = 0 then .error .divisionByZero
    else if p.requiredQuorum ≤ totalVotes / totalSupply then
      if p.votesFor + p.votesAgainst = 0 then .error .divisionByZero
      else
        match getKey cfg ("proposal_threshold") with
        | none => .error .attributeError
        | some (.dur _) => .error .typeError
        | some (.str _) => .error .typeError
        | some (.dec threshold) =>
          if threshold ≤ p.votesFor / (p.votesFor + p.votesAgainst) then
            .ok { p with status := .succeeded }
          else .ok { p with status := .defeated }
    else .ok { p with status := .defeated }
  else .ok p

/-- The `GovernanceManager.cast_vote(voter, proposal_id, vote_type)` (lines
125–180).  The raised errors carry the governance state at the moment of the
raise: the window and duplicate checks all precede the first mutation, but a
raise out of the trailing `_check_proposal_state` call happens *after* the
vote was appended and the tally updated, and those mutations persist. -/
def cast_vote (g : GovState) (tok : TokenState) (voter : String)
    (proposalId : ℕ) (voteType : VoteType) (now : ℤ) :
    Except (PyErr × GovState) (GovState × Vote) :=
  match getKey g.proposals proposalId with
  | none => .error (.proposalNotFound, g)
  | some proposal =>
    if now < proposal.startTime then .error (.votingNotStarted, g)
    else if proposal.endTime < now then .error (.votingEnded, g)
    else
      let votingPower := balanceOf tok.balances voter
      match getKey g.votes proposalId with
      | none => .error (.keyError, g)
      | some voteList =>
        if voteList.filter (fun v => v.voter == voter) ≠ [] then
          .error (.alreadyVoted, g)
        else
          let vote : Vote :=
            { voter := voter, proposalId := proposalId, voteType := voteType
              votingPower := votingPower, timestamp := now }
          let proposal₂ :=
            match voteType with
            | .voteFor =>
                { proposal with votesFor := proposal.votesFor + votingPower }
            | .voteAgainst =>
                { proposal with
                    votesAgainst := proposal.votesAgainst + votingPower }
            | .voteAbstain =>
                { proposal with
                    votesAbstain := proposal.votesAbstain + votingPower }
          let g₂ : GovState :=
            { g with
                proposals := setKey g.proposals proposalId proposal₂
                votes := setKey g.votes proposalId (voteList ++ [vote]) }
          match checkProposalState proposal₂ g.config (get_total_supply tok)
              now with
          | .error e => .error (e, g₂)
          | .ok proposal₃ =>
            .ok ({ g₂ with
                    proposals := setKey g.proposals proposalId proposal₃ },
                  vote)

/-- The `GovernanceManager.get_proposal(proposal_id)` (lines 252–257): a read
that runs `_check_proposal_state` on the proposal when it exists (its two
raising division branches precede any status assignment, so a raise leaves
the state unchanged). -/
def get_proposal (g : GovState) (tok : TokenState) (proposalId : ℕ)
    (now : ℤ) : Except PyErr (GovState × Option Proposal) :=
  match getKey g.proposals proposalId with
  | none => .ok (g, none)
  | some proposal =>
    match checkProposalState proposal g.config (get_total_supply tok) now with
    | .error e => .error e
    | .ok proposal₂ =>
      .ok ({ g with proposals := setKey g.proposals proposalId proposal₂ },
            some proposal₂)

/-- The `GovernanceManager._execute_payload(payload)` (lines 233–250): dispatch
on the `type` field — `transfer` calls `TokenManager.transfer`,
`parameter_change` does `setattr(self.config, parameter, value)` (which
never fails and accepts any attribute name and value), and any other type
raises `Unknown action type`. -/
def execute_payload (payload : Payload) (cfg : Config) (tok : TokenState) :
    Except PyErr (Config × TokenState) :=
  match payload with
  | .transferAction fromAddress toAddress amount =>
      match transfer tok.balances fromAddress toAddress amount with
      | .error e => .error e
      | .ok bal₂ => .ok (cfg, { tok with balances := bal₂ })
  | .parameterChange parameter value =>
      .ok (setKey cfg parameter value, tok)
  | .unknown _ => .error .unknownActionType

/-- The `GovernanceManager.execute_proposal(proposal_id)` (lines 203–231).  Note
that `_check_proposal_state` is **not** invoked here: the stored status is
compared against `SUCCEEDED` directly.  `status = EXECUTED` and
`executed_at = now` are assigned only after the payload ran without raising,
and every raise (including any raise out of `_execute_payload`) precedes the
first mutation, so a failing call leaves all state as it was. -/
def execute_proposal (g : GovState) (tok : TokenState) (proposalId : ℕ)
    (now : ℤ) : Except PyErr (GovState × TokenState) :=
  match getKey g.proposals proposalId with
  | none => .error .proposalNotFound
  | some proposal =>
    if proposal.status ≠ .succeeded then .error .notSucceeded
    else if now < proposal.endTime + proposal.executionDelay then
      .error .timelockNotElapsed
    else
      match proposal.executionPayload with
      | none =>
          .ok ({ g with
                  proposals := setKey g.proposals proposalId
                    { proposal with
                        status := .executed, executedAt := some now } },
                tok)
      | some payload =>
          match execute_payload payload g.config tok with
          | .error e => .error e
          | .ok (cfg₂, tok₂) =>
              .ok ({ g with
                      config := cfg₂
                      proposals := setKey g.proposals proposalId
                        { proposal with
                            status := .executed, executedAt := some now } },
                    tok₂)

theorem getKey_setKey_self {κ α : Type} [DecidableEq κ]
    (l : List (κ × α)) (k : κ) (v : α) :
    getKey (setKey l k v) k = some v := by
  induction l with
  | nil => simp [getKey, setKey]
  | cons hd tl ih =>
      obtain ⟨k₁, v₁⟩ := hd
      by_cases h : k₁ = k
      · simp [getKey, setKey, h]
      · simp [getKey, setKey, h, ih]

/-- Shared shape of the resolution branch: an `ACTIVE` proposal whose window
has closed, with a rational `proposal_threshold` attribute, a non-zero total
supply and a non-zero `for + against` tally, resolves to `SUCCEEDED` exactly
when both the quorum and the approval comparisons hold, else `DEFEATED`. -/
theorem checkProposalState_active_eq (p : Proposal) (cfg : Config)
    (totalSupply : ℚ) (now : ℤ) (threshold : ℚ)
    (hactive : p.status = .active)
    (hnow : p.endTime ≤ now)
    (hsupply : totalSupply ≠ 0)
    (hvotes : p.votesFor + p.votesAgainst ≠ 0)
    (hθ : getKey cfg ("proposal_threshold") = some (.dec threshold)) :
    checkProposalState p cfg totalSupply now =
      .ok { p with status :=
        if p.requiredQuorum ≤
              (p.votesFor + p.votesAgainst + p.votesAbstain) / totalSupply
            ∧ threshold ≤ p.votesFor / (p.votesFor + p.votesAgainst)
        then .succeeded else .defeated } := by
  unfold checkProposalState
  by_cases hq : p.requiredQuorum ≤
      (p.votesFor + p.votesAgainst + p.votesAbstain) / totalSupply
  · by_cases ha : threshold ≤ p.votesFor / (p.votesFor + p.votesAgainst)
    · simp [hactive, hnow, hsupply, hvotes, hθ, hq, ha]
    · simp [hactive, hnow, hsupply, hvotes, hθ, hq, ha]
  · simp [hactive, hnow, hsupply, hvotes, hθ, hq]

/-- C1: resolving an `ACTIVE` proposal at or after `end_time` (with a
rational threshold configured, a non-zero supply and a non-zero
`for + against` tally, so that both `Decimal` divisions are defined) yields
`SUCCEEDED` iff `total/supply >= required_quorum` and
`votes_for/(votes_for+votes_against) >= proposal_threshold`, else
`DEFEATED`. -/
theorem checkProposalState_resolution (p : Proposal) (cfg : Config)
    (totalSupply : ℚ) (now : ℤ) (threshold : ℚ)
    (hactive : p.status = .active)
    (hnow : p.endTime ≤ now)
    (hsupply : totalSupply ≠ 0)
    (hvotes : p.votesFor + p.votesAgainst ≠ 0)
    (hθ : getKey cfg ("proposal_threshold") = some (.dec threshold)) :
    checkProposalState p cfg totalSupply now =
      .ok { p with status :=
        if p.requiredQuorum ≤
              (p.votesFor + p.votesAgainst + p.votesAbstain) / totalSupply
            ∧ threshold ≤ p.votesFor / (p.votesFor + p.votesAgainst)
        then .succeeded else .defeated } :=
  checkProposalState_active_eq p cfg totalSupply now threshold
    hactive hnow hsupply hvotes hθ

/-- The proposal of the spec's quorum/threshold determinism example:
60 for, 40 against, 0 abstain, 4% quorum, voting window closing at 100. -/
def pC1 : Proposal :=
  { id := 1, title := "example", description := "example"
    proposer := "alice", startTime := 0, endTime := 100
    executionDelay := 172800, status := .active, requiredQuorum := 4/100
    votesFor := 60, votesAgainst := 40, votesAbstain := 0
    executionPayload := none, executedAt := none }

/-- Witness for C1, both spec examples: with `total_supply = 1000` the
example proposal resolves to `SUCCEEDED` (participation 10% ≥ 4%, approval
60% ≥ 50%); with `total_supply = 100000` (participation 0.1%) it resolves to
`DEFEATED`. -/
theorem checkProposalState_resolution_witness :
    checkProposalState pC1 initialGovernanceConfig 1000 100 =
      .ok { pC1 with status := .succeeded } ∧
    checkProposalState pC1 initialGovernanceConfig 100000 100 =
      .ok { pC1 with status := .defeated } := by
  constructor
  · have h := checkProposalState_resolution pC1 initialGovernanceConfig
      1000 100 (1/2) rfl (by decide) (by norm_num) (by norm_num [pC1]) rfl
    rw [h]
    norm_num [pC1]
  · have h := checkProposalState_resolution pC1 initialGovernanceConfig
      100000 100 (1/2) rfl (by decide) (by norm_num) (by norm_num [pC1]) rfl
    rw [h]
    norm_num [pC1]

/-- C9: one status transition per `_check_proposal_state` invocation — the
`elif` makes a `DRAFT` proposal whose `end_time` has already passed become
only `ACTIVE` on the first access (never `SUCCEEDED`/`DEFEATED` directly),
and a second access of the now-`ACTIVE` proposal is what resolves it. -/
theorem checkProposalState_single_transition (p : Proposal) (cfg : Config)
    (totalSupply : ℚ) (now : ℤ) (threshold : ℚ)
    (hdraft : p.status = .draft)
    (hstart : p.startTime ≤ now)
    (hend : p.endTime ≤ now)
    (hsupply : totalSupply ≠ 0)
    (hvotes : p.votesFor + p.votesAgainst ≠ 0)
    (hθ : getKey cfg ("proposal_threshold") = some (.dec threshold)) :
    checkProposalState p cfg totalSupply now =
      .ok { p with status := .active }
    ∧ ∃ p₂,
        checkProposalState { p with status := .active } cfg totalSupply now =
          .ok p₂
        ∧ (p₂.status = .succeeded ∨ p₂.status = .defeated) := by
  constructor
  · unfold checkProposalState
    simp [hdraft, hstart]
  · have h := checkProposalState_active_eq { p with status := .active } cfg
      totalSupply now threshold rfl hend hsupply hvotes hθ
    refine ⟨_, h, ?_⟩
    by_cases hc : p.requiredQuorum ≤
        (p.votesFor + p.votesAgainst + p.votesAbstain) / totalSupply
        ∧ threshold ≤ p.votesFor / (p.votesFor + p.votesAgainst)
    · simp [hc]
    · simp [hc]

/-- A proposal still in `DRAFT` whose whole voting window already lies in
the past. -/
def pC9 : Proposal :=
  { id := 1, title := "stale", description := "stale"
    proposer := "alice", startTime := 0, endTime := 100
    executionDelay := 172800, status := .draft, requiredQuorum := 4/100
    votesFor := 60, votesAgainst := 40, votesAbstain := 0
    executionPayload := none, executedAt := none }

/-- Witness for C9: the stale `DRAFT` proposal accessed at time 100 becomes
exactly `ACTIVE`. -/
theorem checkProposalState_single_transition_witness :
    checkProposalState pC9 initialGovernanceConfig 1000 100 =
      .ok { pC9 with status := .active } :=
  (checkProposalState_single_transition pC9 initialGovernanceConfig 1000 100
    (1/2) rfl (by decide) (by decide) (by norm_num) (by norm_num [pC9])
    rfl).1

/-- An `ACTIVE` proposal whose only participation is 100 abstain votes:
quorum (10% of supply 1000) is reached but `for + against = 0`. -/
def pC6 : Proposal :=
  { id := 1, title := "abstain", description := "abstain"
    proposer := "alice", startTime := 0, endTime := 100
    executionDelay := 172800, status := .active, requiredQuorum := 4/100
    votesFor := 0, votesAgainst := 0, votesAbstain := 100
    executionPayload := none, executedAt := none }

/-- C6 (code bug): resolving a quorum-reaching all-abstain proposal raises —
the `votes_for / (votes_for + votes_against)` division in
`_check_proposal_state` has a zero divisor (a `decimal.InvalidOperation` in
Python), so resolution fails instead of treating the approval ratio as 0 and
marking the proposal `DEFEATED`; the sibling `get_proposal_result` (line
282) does guard this very division with `... if votes_for + votes_against >
0 else 0`. -/
theorem checkProposalState_all_abstain_raises :
    checkProposalState pC6 initialGovernanceConfig 1000 100 =
      .error .divisionByZero := by
  unfold checkProposalState
  simp [pC6]
  norm_num

/-- C3 (amended): once a vote by `voter` is recorded on a proposal, every
later `cast_vote` with the same voter and proposal fails and leaves the
governance state (vote lists and the three running tallies) unchanged — the
error is `AlreadyVoted` while the voting window is still open, but
`VotingEnded` once `now > end_time`, because `cast_vote` checks the window
before the duplicate-vote check. -/
theorem cast_vote_duplicate_rejected (g : GovState) (tok : TokenState)
    (voter : String) (proposalId : ℕ) (voteType : VoteType) (now : ℤ)
    (p : Proposal) (vs : List Vote) (v : Vote)
    (hp : getKey g.proposals proposalId = some p)
    (hvs : getKey g.votes proposalId = some vs)
    (hmem : v ∈ vs)
    (hvoter : v.voter = voter)
    (hstart : p.startTime ≤ now) :
    cast_vote g tok voter proposalId voteType now =
      .error
        (if p.endTime < now then PyErr.votingEnded else PyErr.alreadyVoted,
          g) := by
  have hfilter : vs.filter (fun w => w.voter == voter) ≠ [] := by
    intro hnil
    have hv : v ∈ vs.filter (fun w => w.voter == voter) :=
      List.mem_filter.2 ⟨hmem, by simp [hvoter]⟩
    rw [hnil] at hv
    exact absurd hv (List.not_mem_nil v)
  unfold cast_vote
  by_cases hend : p.endTime < now
  · simp [hp, not_lt.mpr hstart, hend]
  · simp [hp, not_lt.mpr hstart, hend, hvs, hfilter]

/-- An `ACTIVE` proposal with window `[0, 100]` carrying one recorded vote
by `alice`. -/
def pC3 : Proposal :=
  { id := 1, title := "vote once", description := "vote once"
    proposer := "alice", startTime := 0, endTime := 100
    executionDelay := 172800, status := .active, requiredQuorum := 4/100
    votesFor := 10, votesAgainst := 0, votesAbstain := 0
    executionPayload := none, executedAt := none }

/-- The vote `alice` already cast on `pC3`. -/
def voteC3 : Vote :=
  { voter := "alice", proposalId := 1, voteType := .voteFor
    votingPower := 10, timestamp := 50 }

/-- Governance state holding `pC3` and its recorded vote. -/
def gC3 : GovState :=
  { config := initialGovernanceConfig
    proposals := [(1, pC3)]
    votes := [(1, [voteC3])]
    nextProposalId := 2 }

/-- Token state for the C3 scenario: `alice` holds 10 tokens. -/
def tokC3 : TokenState :=
  { tokenInfo :=
      { name := "GitHub DAO Token", symbol := "GDT", decimals := 9
        totalSupply := 1000, circulatingSupply := 0 }
    stakingPools := []
    stakingPositions := []
    nextPositionId := 1
    balances := [("alice", 10)]
    treasuryBalance := 0 }

/-- Witness for C3 (amended): a second vote by `alice` at time 60, inside
the voting window, fails with `AlreadyVoted` and returns the state
unchanged. -/
theorem cast_vote_duplicate_rejected_witness :
    cast_vote gC3 tokC3 ("alice") 1 .voteFor 60 =
      .error (PyErr.alreadyVoted, gC3) := by
  have h := cast_vote_duplicate_rejected gC3 tokC3 ("alice") 1 .voteFor 60
    pC3 [voteC3] voteC3 rfl rfl (by simp) rfl (by decide)
  rw [h]
  norm_num [pC3]

/-- Counterexample for C3 as stated: a second `cast_vote` by the same voter
on the same proposal placed after `end_time` fails with `VotingEnded`, not
with `AlreadyVoted` — the window check precedes the duplicate check. -/
theorem cast_vote_second_call_after_end_counterexample :
    cast_vote gC3 tokC3 ("alice") 1 .voteFor 200 =
      .error (PyErr.votingEnded, gC3) ∧
    cast_vote gC3 tokC3 ("alice") 1 .voteFor 200 ≠
      .error (PyErr.alreadyVoted, gC3) := by
  have h : cast_vote gC3 tokC3 ("alice") 1 .voteFor 200 =
      .error (PyErr.votingEnded, gC3) := by
    unfold cast_vote
    norm_num [gC3, pC3, getKey]
  refine ⟨h, ?_⟩
  rw [h]
  intro hbad
  simp at hbad

/-- A proposal whose window closed at 100 with quorum and approval met, but
which nobody accessed after `end_time`: still stored as `ACTIVE`. -/
def pC5 : Proposal :=
  { id := 1, title := "never read", description := "never read"
    proposer := "alice", startTime := 0, endTime := 100
    executionDelay := 10, status := .active, requiredQuorum := 4/100
    votesFor := 60, votesAgainst := 40, votesAbstain := 0
    executionPayload := none, executedAt := none }

/-- Governance state holding the unread proposal `pC5`. -/
def gC5 : GovState :=
  { config := initialGovernanceConfig
    proposals := [(1, pC5)]
    votes := [(1, [])]
    nextProposalId := 2 }

/-- Token state with total supply 1000 for the C5 scenario. -/
def tokC5 : TokenState :=
  { tokenInfo :=
      { name := "GitHub DAO Token", symbol := "GDT", decimals := 9
        totalSupply := 1000, circulatingSupply := 0 }
    stakingPools := []
    stakingPositions := []
    nextPositionId := 1
    balances := []
    treasuryBalance := 0 }

/-- Counterexample for C5 as stated: at time 200 (window closed at 100 with
quorum and approval met, timelock 100+10 elapsed) `execute_proposal` on the
never-accessed proposal fails with `NotSucceeded` instead of succeeding —
`execute_proposal` never invokes the `resolve` step, it compares the stored
status (still `ACTIVE`) against `SUCCEEDED` directly. -/
theorem execute_proposal_without_resolve_counterexample :
    execute_proposal gC5 tokC5 1 200 = .error .notSucceeded := by
  unfold execute_proposal
  simp [gC5, pC5, getKey]

/-- C5 (amended): the `resolve` step (`_check_proposal_state`) is invoked by
the `get_proposal` read and at the end of `cast_vote`, but **not** by
`execute_proposal`; a quorum-and-approval-meeting proposal whose timelock
has elapsed but that nobody accessed after `end_time` is still `ACTIVE`, so
`execute_proposal` fails with `NotSucceeded`, while after one `get_proposal`
read (which resolves it to `SUCCEEDED`) the same `execute_proposal` call
succeeds and sets status `EXECUTED` (shown for a payload-free proposal, so
that payload execution cannot fail). -/
theorem execute_proposal_requires_prior_resolve (g : GovState)
    (tok : TokenState) (proposalId : ℕ) (now : ℤ) (p : Proposal)
    (threshold : ℚ)
    (hp : getKey g.proposals proposalId = some p)
    (hactive : p.status = .active)
    (hend : p.endTime ≤ now)
    (hsupply : get_total_supply tok ≠ 0)
    (hvotes : p.votesFor + p.votesAgainst ≠ 0)
    (hθ : getKey g.config ("proposal_threshold") = some (.dec threshold))
    (hquorum : p.requiredQuorum ≤
      (p.votesFor + p.votesAgainst + p.votesAbstain) / get_total_supply tok)
    (happroval : threshold ≤ p.votesFor / (p.votesFor + p.votesAgainst))
    (hdelay : p.endTime + p.executionDelay ≤ now)
    (hpayload : p.executionPayload = none) :
    execute_proposal g tok proposalId now = .error .notSucceeded
    ∧ get_proposal g tok proposalId now =
        .ok ({ g with proposals := (setKey g.proposals proposalId
                { p with status := .succeeded }) },
              some { p with status := .succeeded })
    ∧ execute_proposal
        { g with proposals := (setKey g.proposals proposalId
            { p with status := .succeeded }) }
        tok proposalId now =
        .ok ({ g with proposals := (setKey
                 (setKey g.proposals proposalId
                   { p with status := .succeeded })
                 proposalId
                 { p with status := .executed, executedAt := some now }) },
              tok) := by
  refine ⟨?_, ?_, ?_⟩
  · unfold execute_proposal
    simp [hp, hactive]
  · unfold get_proposal
    have h := checkProposalState_active_eq p g.config (get_total_supply tok)
      now threshold hactive hend hsupply hvotes hθ
    simp [hp, h, hquorum, happroval]
  · unfold execute_proposal
    simp [getKey_setKey_self, not_lt.mpr hdelay, hpayload]

/-- Witness for C5 (amended), at the concrete scenario: before any read the
call fails with `NotSucceeded`; after one `get_proposal` read at time 200
the proposal is `SUCCEEDED` and `execute_proposal` marks it `EXECUTED`. -/
theorem execute_proposal_requires_prior_resolve_witness :
    execute_proposal
      { gC5 with proposals := (setKey gC5.proposals 1
          { pC5 with status := .succeeded }) }
      tokC5 1 200 =
      .ok ({ gC5 with proposals := (setKey
               (setKey gC5.proposals 1 { pC5 with status := .succeeded })
               1
               { pC5 with status := .executed, executedAt := some 200 }) },
            tokC5) :=
  (execute_proposal_requires_prior_resolve gC5 tokC5 1 200 pC5 (1/2)
    rfl rfl (by decide) (by norm_num [get_total_supply, tokC5])
    (by norm_num [pC5]) rfl
    (by norm_num [pC5, get_total_supply, tokC5])
    (by norm_num [pC5]) (by decide) rfl).2.2

/-- C8: on a `SUCCEEDED` proposal with elapsed timelock and a payload,
`execute_proposal` dispatches to `_execute_payload`; an error from the
payload (a failing transfer, or an unknown payload type, which always raises
`UnknownPayloadType`) propagates before any mutation — no `EXECUTED` state
is produced and the stored proposal keeps status `SUCCEEDED` with
`executed_at` unset, so execution can be retried — while on payload success
the status is set to `EXECUTED` and `executed_at` is recorded. -/
theorem execute_proposal_payload_atomicity (g : GovState) (tok : TokenState)
    (proposalId : ℕ) (now : ℤ) (p : Proposal) (payload : Payload)
    (hp : getKey g.proposals proposalId = some p)
    (hstatus : p.status = .succeeded)
    (hdelay : p.endTime + p.executionDelay ≤ now)
    (hpayload : p.executionPayload = some payload) :
    (∀ e, execute_payload payload g.config tok = .error e →
      execute_proposal g tok proposalId now = .error e)
    ∧ (∀ actionType,
        execute_payload (.unknown actionType) g.config tok =
          .error .unknownActionType)
    ∧ (∀ cfg₂ tok₂, execute_payload payload g.config tok = .ok (cfg₂, tok₂) →
      execute_proposal g tok proposalId now =
        .ok ({ g with
                config := cfg₂
                proposals := (setKey g.proposals proposalId
                  { p with status := .executed, executedAt := some now }) },
              tok₂)) := by
  refine ⟨?_, fun _ => rfl, ?_⟩
  · intro e he
    unfold execute_proposal
    simp [hp, hstatus, not_lt.mpr hdelay, hpayload, he]
  · intro cfg₂ tok₂ hok
    unfold execute_proposal
    simp [hp, hstatus, not_lt.mpr hdelay, hpayload, hok]

/-- A transfer payload that must fail: the `rich` account holds nothing. -/
def payloadC8 : Payload := .transferAction "rich" "bob" 50

/-- A `SUCCEEDED` proposal carrying the failing transfer payload. -/
def pC8 : Proposal :=
  { id := 1, title := "payout", description := "payout"
    proposer := "alice", startTime := 0, endTime := 100
    executionDelay := 10, status := .succeeded, requiredQuorum := 4/100
    votesFor := 60, votesAgainst := 40, votesAbstain := 0
    executionPayload := some payloadC8, executedAt := none }

/-- Governance state holding `pC8`. -/
def gC8 : GovState :=
  { config := initialGovernanceConfig
    proposals := [(1, pC8)]
    votes := [(1, [])]
    nextProposalId := 2 }

/-- Token state with empty balances, so the payload transfer must fail. -/
def tokC8 : TokenState :=
  { tokenInfo :=
      { name := "GitHub DAO Token", symbol := "GDT", decimals := 9
        totalSupply := 1000, circulatingSupply := 0 }
    stakingPools := []
    stakingPositions := []
    nextPositionId := 1
    balances := []
    treasuryBalance := 0 }

/-- Witness for C8: the failing payload transfer makes `execute_proposal`
fail with `InsufficientBalance`, producing no `EXECUTED` state. -/
theorem execute_proposal_payload_atomicity_witness :
    execute_proposal gC8 tokC8 1 200 = .error .insufficientBalance :=
  (execute_proposal_payload_atomicity gC8 tokC8 1 200 pC8 payloadC8
    rfl rfl (by decide) rfl).1 .insufficientBalance
    (by simp [payloadC8, execute_payload, transfer, balanceOf, getKey, tokC8])

/-- C10: executing a `parameter_change` payload never fails — for every
parameter name and value, `setattr(self.config, parameter, value)` stores
the value under the name in the config's attribute dict (creating a
brand-new attribute when no field of that name exists), with no validation
of the name or of the value's type; afterwards the attribute reads back as
the stored value. -/
theorem execute_payload_parameterChange_total (cfg : Config)
    (tok : TokenState) (parameter : String) (value : PyVal) :
    execute_payload (.parameterChange parameter value) cfg tok =
      .ok (setKey cfg parameter value, tok)
    ∧ getKey (setKey cfg parameter value) parameter = some value :=
  ⟨rfl, getKey_setKey_self cfg parameter value⟩
